import Mathlib

set_option maxRecDepth 8000

/-!
Verification of the content-automation pipeline (orchestrator, validator,
retry engine, publisher signing) as a shallow embedding in Lean 4.

Source files embedded:
- `src/pipeline/validator.py`        (ContentValidator and its three checks)
- `src/pipeline/content_pipeline.py` (ContentPipeline.run and helpers)
- `src/pipeline/claude_client.py`    (ClaudeClient retry loop)
- `src/publishers/twitter_publisher.py` (truncation and OAuth 1.0a signing)

Strings are modelled on their code-point lists (`String.data`), matching
Python `str` semantics (`len`, slicing and iteration are per code point).
External library calls (the Anthropic backend, `httpx`, `hmac`/`hashlib`)
are modelled as abstract parameters.
-/

/-! ## String helpers shared by the embedding -/

/-- A single apostrophe, as a string (used in Python-style repr output). -/
def sQuote : String := String.mk [Char.ofNat 39]

/-- Word character in the sense of the regex `\w` class (content handled by
the validator is ASCII; `\w` is modelled as alphanumeric or underscore). -/
def isWordChar (c : Char) : Bool := c.isAlphanum || c == '_'

/-- If `s` starts with `phrase`, return the remaining suffix. -/
def startsWithChars : List Char → List Char → Option (List Char)
  | [], rest => some rest
  | _ :: _, [] => none
  | p :: ps, c :: cs => if c == p then startsWithChars ps cs else none

/-- Both ends of a candidate match satisfy the `\b` word-boundary test.
`prev` is the character just before the match site (if any); `rest` is what
follows the matched phrase. The phrases in `FABRICATION_MARKERS` begin and
end with word characters, so `\b` holds iff the neighbour is not a word
character. -/
def boundaryOk (prev : Option Char) (rest : List Char) : Bool :=
  (match prev with
   | none => true
   | some c => !isWordChar c)
  && (match rest with
      | [] => true
      | c :: _ => !isWordChar c)

/-- Predicate: `phrase` occurs at the head of `s` with word boundaries on both sides. -/
def matchHere (phrase : List Char) (prev : Option Char) (s : List Char) : Bool :=
  match startsWithChars phrase s with
  | none => false
  | some rest => boundaryOk prev rest

/-- Scan of `re.search` over every start position, threading the previous
character for the left word-boundary test. -/
def searchFrom (phrase : List Char) : Option Char → List Char → Bool
  | prev, [] => matchHere phrase prev []
  | prev, c :: cs => matchHere phrase prev (c :: cs) || searchFrom phrase (some c) cs

/-! ## `src/pipeline/validator.py` -/

/-- Source `FABRICATION_MARKERS`: the fixed regex patterns, verbatim. Each is a
word-boundary-delimited literal phrase `\b…\b`. -/
def FABRICATION_MARKERS : List String :=
  ["\\bonce told me\\b",
   "\\ba mentee of mine\\b",
   "\\bI remember when\\b",
   "\\btrue story\\b",
   "\\bfun fact about me\\b"]

/-- The literal phrase of a `\b…\b` pattern (strip the two-character `\b`
escape from each end). -/
def patternPhrase (p : String) : List Char :=
  ((p.data.drop 2).reverse.drop 2).reverse

/-- Embeds `re.search(pattern, content, re.IGNORECASE)` for the patterns above:
case-insensitive search for the pattern's phrase with word boundaries.
Case-insensitivity is modelled by lowercasing both sides (the markers are
ASCII). -/
def regexSearchCI (pattern content : String) : Bool :=
  searchFrom ((patternPhrase pattern).map Char.toLower) none (content.data.map Char.toLower)

/-- The failure message `f"Fabrication marker detected: '{pattern}'"`. -/
def fabMsg (pattern : String) : String :=
  "Fabrication marker detected: " ++ sQuote ++ pattern ++ sQuote

/-- Source `ContentValidator._check_fabrication`: every marker is tried; each match
appends one failure naming the pattern. -/
def check_fabrication (content : String) : List String :=
  FABRICATION_MARKERS.filterMap fun p =>
    if regexSearchCI p content then some (fabMsg p) else none

/-- Source `PLATFORM_MAX_CHARS`, verbatim. -/
def PLATFORM_MAX_CHARS : List (String × Nat) :=
  [("x", 280), ("linkedin", 3000), ("medium", 50000)]

/-- Embeds `PLATFORM_MAX_CHARS.get(platform)`. -/
def platformMax (platform : String) : Option Nat :=
  (PLATFORM_MAX_CHARS.find? (fun kv => kv.1 == platform)).map (·.2)

/-- The failure message `f"Content exceeds {platform} limit: {n} > {m} chars"`. -/
def limitMsg (platform : String) (n m : Nat) : String :=
  "Content exceeds " ++ platform ++ " limit: " ++ toString n ++ " > " ++ toString m ++ " chars"

/-- Source `ContentValidator._check_platform_limits`. The Python guard is
`if max_chars and len(content) > max_chars`; `max_chars` is falsy when the
lookup returned `None` (no configured limit) or `0`. -/
def check_platform_limits (content platform : String) : List String :=
  match platformMax platform with
  | none => []
  | some m =>
      if m ≠ 0 ∧ content.length > m then [limitMsg platform content.length m] else []

/-- The whitespace set of Python `str.strip()` (ASCII part). -/
def PY_WHITESPACE : List Char :=
  [' ', '\t', '\n', '\r', Char.ofNat 11, Char.ofNat 12]

/-- Python `content.strip()`: drop leading and trailing whitespace. -/
def pyStrip (s : String) : String :=
  String.mk (((s.data.dropWhile (· ∈ PY_WHITESPACE)).reverse.dropWhile (· ∈ PY_WHITESPACE)).reverse)

/-- Source `ContentValidator._check_not_empty`: fails when the content is absent or
its stripped length is below 50. -/
def check_not_empty (content : String) : List String :=
  if content.data = [] ∨ (pyStrip content).length < 50 then
    ["Content is empty or too short"]
  else []

/-- Source `ValidationResult` dataclass. -/
structure ValidationResult where
  passed : Bool
  failures : List String
deriving Repr, DecidableEq

/-- Source `ContentValidator.validate`: accumulate all three checks in order, then
set `passed = (len(failures) == 0)`. -/
def validate (content platform : String) : ValidationResult :=
  let failures :=
    check_fabrication content
      ++ check_platform_limits content platform
      ++ check_not_empty content
  { passed := failures.length == 0, failures := failures }

/-! ## `src/pipeline/content_pipeline.py` -/

/-- Python `repr` of a list of strings, as interpolated into the
`ValueError` message (`['a', 'b']`). -/
def pyListRepr (l : List String) : String :=
  "[" ++ String.intercalate ", " (l.map (fun s => sQuote ++ s ++ sQuote)) ++ "]"

/-- Outcome of one `claude_client.generate(pillar, platform)` call: either
generated text or a raised exception. -/
inductive GenOutcome where
  | ok (content : String)
  | err (msg : String)
deriving Repr, DecidableEq

/-- Outcome of one `publisher.publish(content)` call. -/
inductive PubOutcome where
  | ok (status : String)
  | err (msg : String)
deriving Repr, DecidableEq

/-- The external collaborators of the orchestrator: the generation backend
(keyed by pillar and platform) and the per-platform publisher adapters
(keyed by platform and content). Modelling them as functions makes one
the run environment explicit. -/
structure World where
  gen : String → String → GenOutcome
  pub : String → String → PubOutcome

/-- Source `PipelineConfig` dataclass. -/
structure PipelineConfig where
  platforms : List String
  pillar : String
  dry_run : Bool := false

/-- Source `ContentPipeline.SUPPORTED_PLATFORMS`, verbatim. -/
def SUPPORTED_PLATFORMS : List String := ["linkedin", "medium", "x"]

/-- What `asyncio.gather(..., return_exceptions=True)` records for one task:
the returned status string, or the exception the task raised, as a value. -/
inductive TaskResult where
  | ok (status : String)
  | exn (msg : String)
deriving Repr, DecidableEq

/-- Source `ContentPipeline._generate_and_publish`, plus an instrumentation trace:
the second component lists the platforms whose publisher adapter was
invoked during the call (empty or singleton). A raised exception at any
stage is returned as `TaskResult.exn`, which is how the `gather` fan-in
records it. -/
def generate_and_publish (w : World) (cfg : PipelineConfig) (platform : String) :
    TaskResult × List String :=
  match w.gen cfg.pillar platform with
  | .err m => (.exn m, [])
  | .ok content =>
      let validation := validate content platform
      if !validation.passed then
        (.exn ("Validation failed for " ++ platform ++ ": " ++ pyListRepr validation.failures), [])
      else if cfg.dry_run then
        (.ok ("[DRY RUN] Would publish to " ++ platform), [])
      else
        match w.pub platform content with
        | .ok s => (.ok s, [platform])
        | .err m => (.exn m, [platform])

/-- Key list of a Python dict comprehension: first occurrence of each key,
in encounter order (`seen` accumulates keys already inserted). -/
def dedupFirstAux : List String → List String → List String
  | _, [] => []
  | seen, x :: xs =>
      if x ∈ seen then dedupFirstAux seen xs
      else x :: dedupFirstAux (x :: seen) xs

/-- First-occurrence deduplication, starting from no keys. -/
def dedupFirst (l : List String) : List String := dedupFirstAux [] l

/-- The keys of the `tasks` dict built in `ContentPipeline.run`: configured
platforms filtered to the supported set, keyed by platform identifier. -/
def taskKeys (cfg : PipelineConfig) : List String :=
  dedupFirst (cfg.platforms.filter (fun p => SUPPORTED_PLATFORMS.contains p))

/-- Source `ContentPipeline.run`: one task per task-dict key, gathered with
exception capture and zipped back with the keys. The value attached to a
key depends only on that key's own task. -/
def run (w : World) (cfg : PipelineConfig) : List (String × TaskResult) :=
  (taskKeys cfg).map (fun p => (p, (generate_and_publish w cfg p).1))

/-! ## `src/pipeline/claude_client.py` retry engine -/

/-- What one backend attempt does, as seen by the `try` in
`_call_with_retry`: a returned text, a `RateLimitError`, an `APIError`
with a message, or any other exception. -/
inductive AttemptOutcome where
  | success (text : String)
  | rateLimit
  | apiError (msg : String)
  | other (msg : String)
deriving Repr, DecidableEq

/-- How `_call_with_retry` terminates: a returned text, a raised
`ContentGenerationError`, an unclassified exception propagating unchanged,
or the (unreachable for `MAX_RETRIES > 0`) implicit `None` fall-through of
the `for` loop. -/
inductive CallResult where
  | ok (text : String)
  | genError (msg : String)
  | uncaught (msg : String)
  | fellThrough
deriving Repr, DecidableEq

/-- Source `ClaudeClient.MAX_RETRIES`, verbatim. -/
def MAX_RETRIES : Nat := 3

/-- The retry loop of `_call_with_retry`. `jitter n` stands for the value
`random.uniform(0, 1)` drew before the sleep following attempt `n`;
`oc n` is the backend's behaviour on attempt `n`. Returns the terminal
result paired with the list of sleep durations, in order. `fuel` is the
number of loop iterations left (`MAX_RETRIES - attempt`). -/
def retryAux (jitter : Nat → ℚ) (oc : Nat → AttemptOutcome) : Nat → Nat → CallResult × List ℚ
  | _, 0 => (.fellThrough, [])
  | attempt, fuel + 1 =>
      match oc attempt with
      | .success t => (.ok t, [])
      | .rateLimit =>
          if attempt = MAX_RETRIES - 1 then
            (.genError "Rate limit exceeded after max retries", [])
          else
            let r := retryAux jitter oc (attempt + 1) fuel
            (r.1, ((2 : ℚ) ^ attempt + jitter attempt) :: r.2)
      | .apiError m =>
          if attempt = MAX_RETRIES - 1 then
            (.genError ("API error after " ++ toString MAX_RETRIES ++ " attempts: " ++ m), [])
          else
            let r := retryAux jitter oc (attempt + 1) fuel
            (r.1, (1 : ℚ) :: r.2)
      | .other m => (.uncaught m, [])

/-- Source `_call_with_retry` itself: the loop starts at attempt 0 with
`MAX_RETRIES` iterations available. -/
def call_with_retry (jitter : Nat → ℚ) (oc : Nat → AttemptOutcome) : CallResult × List ℚ :=
  retryAux jitter oc 0 MAX_RETRIES

/-- The loop's state upon entering attempt `n`. -/
def retryFrom (jitter : Nat → ℚ) (oc : Nat → AttemptOutcome) (n : Nat) : CallResult × List ℚ :=
  retryAux jitter oc n (MAX_RETRIES - n)

/-! ## `src/publishers/twitter_publisher.py` truncation -/

/-- Source `TwitterPublisher.MAX_TWEET_LENGTH`, verbatim. -/
def MAX_TWEET_LENGTH : Nat := 280

/-- The horizontal-ellipsis character appended by `_truncate`. -/
def ellipsisChar : Char := Char.ofNat 8230

/-- Source `TwitterPublisher._truncate`: content at most 280 code points long is
returned unchanged; otherwise the first 279 code points plus `…`. -/
def truncate (content : String) : String :=
  if content.length ≤ MAX_TWEET_LENGTH then content
  else String.mk (content.data.take (MAX_TWEET_LENGTH - 1) ++ [ellipsisChar])

/-! ## `src/publishers/twitter_publisher.py` OAuth 1.0a signing

`hmac.new(key, msg, hashlib.sha1).digest()` is Python standard library,
external to this repository; it is modelled as an abstract byte-level
function `hmacSha1 : key bytes → message bytes → digest bytes`. Everything
else (`urllib.parse.quote`, `sorted`, `base64.b64encode`, string
formatting) is embedded concretely. -/

/-- UTF-8 encoding of one code point, as byte values. -/
def utf8Bytes (n : Nat) : List Nat :=
  if n < 128 then [n]
  else if n < 2048 then [192 + n / 64, 128 + n % 64]
  else if n < 65536 then [224 + n / 4096, 128 + (n / 64) % 64, 128 + n % 64]
  else [240 + n / 262144, 128 + (n / 4096) % 64, 128 + (n / 64) % 64, 128 + n % 64]

/-- Embeds `s.encode()`: the UTF-8 bytes of a string. -/
def strBytes (s : String) : List Nat :=
  s.data.flatMap (fun c => utf8Bytes c.toNat)

/-- RFC 3986 unreserved bytes: ALPHA, DIGIT, `-`, `.`, `_`, `~`. -/
def isUnreservedByte (b : Nat) : Bool :=
  (65 ≤ b && b ≤ 90) || (97 ≤ b && b ≤ 122) || (48 ≤ b && b ≤ 57)
    || b == 45 || b == 46 || b == 95 || b == 126

/-- Uppercase hexadecimal digit for a value below 16. -/
def hexUpper (n : Nat) : Char :=
  if n < 10 then Char.ofNat (48 + n) else Char.ofNat (55 + n)

/-- One byte of `urllib.parse.quote` with an empty safe set: unreserved bytes pass
through, every other byte becomes `%XX` with uppercase hex. -/
def pctByte (b : Nat) : List Char :=
  if isUnreservedByte b then [Char.ofNat b]
  else ['%', hexUpper (b / 16), hexUpper (b % 16)]

/-- Embeds `urllib.parse.quote` with an empty safe set: percent-encode the UTF-8 bytes. -/
def pctEncode (s : String) : String :=
  String.mk ((strBytes s).flatMap pctByte)

/-- Code-point-wise lexicographic order on strings, as Python compares
`str` values in `sorted`. -/
def lexLe : List Char → List Char → Bool
  | [], _ => true
  | _ :: _, [] => false
  | a :: as, b :: bs =>
      if a.toNat < b.toNat then true
      else if b.toNat < a.toNat then false
      else lexLe as bs

/-- String comparison wrapper for `lexLe`. -/
def strLexLe (a b : String) : Bool := lexLe a.data b.data

/-- Stable insertion of a key-value pair, ordering by `keyOf` of the key.
(The parameter dictionaries signed here have pairwise distinct keys, so
the value component never participates in the comparison, exactly as in
the Python tuple sort of `dict.items()`.) -/
def insertByKey (keyOf : String → String) (x : String × String) :
    List (String × String) → List (String × String)
  | [] => [x]
  | y :: ys =>
      if strLexLe (keyOf x.1) (keyOf y.1) then x :: y :: ys
      else y :: insertByKey keyOf x ys

/-- Insertion sort of key-value pairs by `keyOf` of the key. -/
def sortByKey (keyOf : String → String) :
    List (String × String) → List (String × String)
  | [] => []
  | x :: xs => insertByKey keyOf x (sortByKey keyOf xs)

/-- The base64 alphabet. -/
def B64_ALPHABET : List Char :=
  "ABCDEFGHIJKLMNOPQRSTUVWXYZabcdefghijklmnopqrstuvwxyz0123456789+/".data

/-- Character for one 6-bit group. -/
def b64Char (n : Nat) : Char := B64_ALPHABET.getD n (Char.ofNat 61)

/-- Embeds `base64.b64encode`, three input bytes at a time with `=` padding. -/
def b64Encode : List Nat → List Char
  | [] => []
  | [b1] =>
      [b64Char (b1 / 4), b64Char (b1 % 4 * 16), Char.ofNat 61, Char.ofNat 61]
  | [b1, b2] =>
      [b64Char (b1 / 4), b64Char (b1 % 4 * 16 + b2 / 16),
       b64Char (b2 % 16 * 4), Char.ofNat 61]
  | b1 :: b2 :: b3 :: rest =>
      b64Char (b1 / 4) :: b64Char (b1 % 4 * 16 + b2 / 16)
        :: b64Char (b2 % 16 * 4 + b3 / 64) :: b64Char (b3 % 64) :: b64Encode rest

/-- Embeds `base64.b64encode(bs).decode()`. -/
def base64 (bs : List Nat) : String := String.mk (b64Encode bs)

/-- Embeds `s.upper()` (ASCII). -/
def strUpper (s : String) : String := String.mk (s.data.map Char.toUpper)

/-- The four OAuth 1.0a credentials read by `TwitterPublisher.__init__`. -/
structure TwitterCreds where
  consumer_key : String
  consumer_secret : String
  access_token : String
  access_token_secret : String

/-- The `oauth_params` dict of `_build_oauth_headers`, in insertion order,
with the freshly drawn `nonce` and `timestamp` made explicit inputs. -/
def oauthParams (creds : TwitterCreds) (nonce timestamp : String) :
    List (String × String) :=
  [("oauth_consumer_key", creds.consumer_key),
   ("oauth_nonce", nonce),
   ("oauth_signature_method", "HMAC-SHA1"),
   ("oauth_timestamp", timestamp),
   ("oauth_token", creds.access_token),
   ("oauth_version", "1.0")]

/-- Source `TwitterPublisher._build_oauth_headers`, returning the value of the
`Authorization` header. the Python `sorted(oauth_params.items())` compares
raw key strings (values are never reached: the keys are distinct), so it
is `sortByKey` with the identity key function. -/
def build_oauth_headers (hmacSha1 : List Nat → List Nat → List Nat)
    (creds : TwitterCreds) (method url nonce timestamp : String) : String :=
  let params := oauthParams creds nonce timestamp
  let param_string := String.intercalate "&"
    ((sortByKey (fun k => k) params).map fun kv => pctEncode kv.1 ++ "=" ++ pctEncode kv.2)
  let base_string := strUpper method ++ "&" ++ pctEncode url ++ "&" ++ pctEncode param_string
  let signing_key := pctEncode creds.consumer_secret ++ "&" ++ pctEncode creds.access_token_secret
  let signature := base64 (hmacSha1 (strBytes signing_key) (strBytes base_string))
  "OAuth " ++ String.intercalate ", "
    ((sortByKey (fun k => k) (params ++ [("oauth_signature", signature)])).map
      fun kv => pctEncode kv.1 ++ "=\"" ++ pctEncode kv.2 ++ "\"")

/-- Modelled from the spec: the request-signing sub-protocol of §6, stated
in the words of the spec — collect the six protocol parameters;
percent-encode names and values per RFC 3986; join `key=value` pairs
sorted lexicographically by *encoded* key; base string
`METHOD&percent-encode(URL)&percent-encode(parameter-string)`; signing key
`percent-encode(consumer-secret)&percent-encode(token-secret)`; HMAC-SHA1,
base64, inserted as `oauth_signature`; header `OAuth k1="v1", k2="v2", …`
sorted the same way with percent-encoded quoted values. -/
def spec_oauth_header (hmacSha1 : List Nat → List Nat → List Nat)
    (creds : TwitterCreds) (method url nonce timestamp : String) : String :=
  let params := oauthParams creds nonce timestamp
  let param_string := String.intercalate "&"
    ((sortByKey pctEncode params).map fun kv => pctEncode kv.1 ++ "=" ++ pctEncode kv.2)
  let base_string := strUpper method ++ "&" ++ pctEncode url ++ "&" ++ pctEncode param_string
  let signing_key := pctEncode creds.consumer_secret ++ "&" ++ pctEncode creds.access_token_secret
  let signature := base64 (hmacSha1 (strBytes signing_key) (strBytes base_string))
  "OAuth " ++ String.intercalate ", "
    ((sortByKey pctEncode (params ++ [("oauth_signature", signature)])).map
      fun kv => pctEncode kv.1 ++ "=\"" ++ pctEncode kv.2 ++ "\"")

example : regexSearchCI "\\bonce told me\\b" "he once told me this" = true := by decide
example : regexSearchCI "\\bonce told me\\b" "he Once Told Me this" = true := by decide
example : regexSearchCI "\\bonce told me\\b" "sconce told mead" = false := by decide
example : check_platform_limits (String.mk (List.replicate 281 'a')) "x"
    = [limitMsg "x" 281 280] := by decide
example : check_platform_limits (String.mk (List.replicate 280 'a')) "x" = [] := by decide
example : (validate (String.mk (List.replicate 100 'b')) "x").passed = true := by decide

/-! ## Helper lemmas -/

/-- A `filterMap` over an if-some-else-none body is a `filter` then `map`. -/
theorem filterMap_ite_eq_filter_map {α β : Type} (f : α → β) (q : α → Bool) (l : List α) :
    (l.filterMap fun a => if q a then some (f a) else none) = (l.filter q).map f := by
  induction l with
  | nil => rfl
  | cons a t ih => cases hq : q a <;> simp [List.filterMap_cons, List.filter_cons, hq, ih]

/-- Evaluation of `check_platform_limits` when the platform has a configured limit. -/
theorem check_platform_limits_some (content platform : String) (m : Nat)
    (h : platformMax platform = some m) :
    check_platform_limits content platform
      = if m ≠ 0 ∧ content.length > m then [limitMsg platform content.length m] else [] := by
  unfold check_platform_limits
  rw [h]

/-- Evaluation of `check_platform_limits` when the platform has no configured limit. -/
theorem check_platform_limits_none (content platform : String)
    (h : platformMax platform = none) :
    check_platform_limits content platform = [] := by
  unfold check_platform_limits
  rw [h]

/-! ## Claim theorems: validator -/

/-- C3: the fabrication check matches the content case-insensitively
against each marker with no short-circuit — the failure list is exactly
one failure, naming the offending pattern, per matching marker (in marker
order), and two contents equal up to letter case produce identical
fabrication failures (in particular "Once Told Me" triggers the same
failure as "once told me"). -/
theorem fabrication_check_accumulates_case_insensitively (c1 c2 : String)
    (hcase : c1.data.map Char.toLower = c2.data.map Char.toLower) :
    check_fabrication c1
        = (FABRICATION_MARKERS.filter (fun p => regexSearchCI p c1)).map fabMsg
    ∧ (check_fabrication c1).length
        = (FABRICATION_MARKERS.filter (fun p => regexSearchCI p c1)).length
    ∧ check_fabrication c1 = check_fabrication c2 := by
  have hsearch : ∀ p, regexSearchCI p c1 = regexSearchCI p c2 := by
    intro p
    unfold regexSearchCI
    rw [hcase]
  have h1 := filterMap_ite_eq_filter_map fabMsg (fun p => regexSearchCI p c1) FABRICATION_MARKERS
  refine ⟨h1, by unfold check_fabrication; rw [h1, List.length_map], ?_⟩
  unfold check_fabrication
  simp only [hsearch]

/-- Witness for C3 at concrete inputs: a mixed-case content produces the
same fabrication failures as its lowercase variant. -/
theorem fabrication_check_accumulates_case_insensitively_witness :
    check_fabrication "He Once Told Me it was a True Story."
      = check_fabrication "he once told me it was a true story." :=
  (fabrication_check_accumulates_case_insensitively
    "He Once Told Me it was a True Story."
    "he once told me it was a true story." (by decide)).2.2

/-- C5: `validate` passes iff its failure list is empty, and the failures
are exactly the fabrication failures, then the platform-length failures,
then the emptiness failures, in that order. -/
theorem validate_passed_iff_no_failures (content platform : String) :
    ((validate content platform).passed = true ↔ (validate content platform).failures = [])
    ∧ (validate content platform).failures
        = check_fabrication content
            ++ check_platform_limits content platform
            ++ check_not_empty content := by
  refine ⟨?_, rfl⟩
  simp [validate, List.length_eq_zero]

/-- C6: a platform with a configured maximum rejects content strictly
longer than the limit with exactly one failure carrying the actual and
limit counts, accepts content exactly at the limit, and a platform with
no configured limit is never length-checked. -/
theorem platform_limit_boundary (platform content : String) (m : Nat)
    (hm : (platform, m) ∈ PLATFORM_MAX_CHARS) :
    (content.length > m →
        check_platform_limits content platform = [limitMsg platform content.length m])
    ∧ (content.length = m → check_platform_limits content platform = [])
    ∧ (∀ q c : String, platformMax q = none → check_platform_limits c q = []) := by
  have hmax : platformMax platform = some m ∧ m ≠ 0 := by
    simp only [PLATFORM_MAX_CHARS, List.mem_cons, List.not_mem_nil, or_false] at hm
    rcases hm with h | h | h <;>
      · rw [Prod.ext_iff] at h
        obtain ⟨h1, h2⟩ := h
        subst h1
        subst h2
        exact ⟨by decide, by decide⟩
  refine ⟨fun h => ?_, fun h => ?_, fun q c hq => check_platform_limits_none c q hq⟩
  · rw [check_platform_limits_some content platform m hmax.1, if_pos ⟨hmax.2, h⟩]
  · rw [check_platform_limits_some content platform m hmax.1, if_neg]
    rintro ⟨-, hgt⟩
    omega


/-- Witness for C6: for platform `x` (limit 280), content of 281 `a`s is
rejected with the actual-vs-limit message and content of 280 `a`s passes
the length check. -/
theorem platform_limit_boundary_witness :
    check_platform_limits (String.mk (List.replicate 281 'a')) "x"
        = [limitMsg "x" (String.mk (List.replicate 281 'a')).length 280]
    ∧ check_platform_limits (String.mk (List.replicate 280 'a')) "x" = [] :=
  ⟨(platform_limit_boundary "x" (String.mk (List.replicate 281 'a')) 280 (by decide)).1
      (by decide),
   (platform_limit_boundary "x" (String.mk (List.replicate 280 'a')) 280 (by decide)).2.1
      (by decide)⟩

/-! ## Claim theorems: Twitter truncation -/

/-- C9: `_truncate` returns content of at most 280 code points unchanged,
and otherwise the first 279 code points followed by a single ellipsis, for
a total length of exactly 280; in all cases the result is at most 280 code
points long. -/
theorem truncate_respects_tweet_limit (content : String) :
    (content.length ≤ 280 → truncate content = content)
    ∧ (content.length > 280 →
        truncate content = String.mk (content.data.take 279 ++ [ellipsisChar])
          ∧ (truncate content).length = 280)
    ∧ (truncate content).length ≤ 280 := by
  have hdata : content.length = content.data.length := rfl
  have hunfold : truncate content
      = if content.length ≤ 280 then content
        else String.mk (content.data.take 279 ++ [ellipsisChar]) := rfl
  refine ⟨fun hle => by rw [hunfold, if_pos hle], fun hgt => ?_, ?_⟩
  · have hnle : ¬ content.length ≤ 280 := by omega
    have heq : truncate content = String.mk (content.data.take 279 ++ [ellipsisChar]) := by
      rw [hunfold, if_neg hnle]
    refine ⟨heq, ?_⟩
    rw [heq]
    show (content.data.take 279 ++ [ellipsisChar]).length = 280
    rw [List.length_append, List.length_take]
    simp only [List.length_cons, List.length_nil]
    omega
  · by_cases hle : content.length ≤ 280
    · rw [hunfold, if_pos hle]
      exact hle
    · rw [hunfold, if_neg hle]
      show (content.data.take 279 ++ [ellipsisChar]).length ≤ 280
      rw [List.length_append, List.length_take]
      simp only [List.length_cons, List.length_nil]
      omega

/-- Witness for C9: a short string is unchanged; 300 characters truncate to
exactly 280. -/
theorem truncate_respects_tweet_limit_witness :
    truncate "short" = "short"
    ∧ (truncate (String.mk (List.replicate 300 'a'))).length = 280 :=
  ⟨(truncate_respects_tweet_limit "short").1 (by decide),
   ((truncate_respects_tweet_limit (String.mk (List.replicate 300 'a'))).2.1 (by decide)).2⟩

/-! ## Helper lemmas: orchestrator -/

/-- Membership in the dict-key accumulator: an element appears iff it is in
the remaining input and was not already inserted. -/
theorem mem_dedupFirstAux (a : String) : ∀ (l seen : List String),
    a ∈ dedupFirstAux seen l ↔ a ∈ l ∧ a ∉ seen := by
  intro l
  induction l with
  | nil =>
      intro seen
      simp [dedupFirstAux]
  | cons x xs ih =>
      intro seen
      unfold dedupFirstAux
      by_cases hx : x ∈ seen
      · rw [if_pos hx, ih]
        simp only [List.mem_cons]
        constructor
        · rintro ⟨h1, h2⟩
          exact ⟨Or.inr h1, h2⟩
        · rintro ⟨h1, h2⟩
          rcases h1 with rfl | h1
          · exact absurd hx h2
          · exact ⟨h1, h2⟩
      · rw [if_neg hx]
        simp only [List.mem_cons, ih]
        constructor
        · rintro (rfl | ⟨h1, h2⟩)
          · exact ⟨Or.inl rfl, hx⟩
          · exact ⟨Or.inr h1, fun hs => h2 (Or.inr hs)⟩
        · rintro ⟨h1, h2⟩
          rcases h1 with rfl | h1
          · exact Or.inl rfl
          · by_cases hax : a = x
            · exact Or.inl hax
            · refine Or.inr ⟨h1, ?_⟩
              intro hs
              rcases hs with h | h
              · exact hax h
              · exact h2 h

/-- The dict-key accumulator never repeats a key. -/
theorem nodup_dedupFirstAux : ∀ (l seen : List String), (dedupFirstAux seen l).Nodup := by
  intro l
  induction l with
  | nil =>
      intro seen
      simp [dedupFirstAux]
  | cons x xs ih =>
      intro seen
      unfold dedupFirstAux
      by_cases hx : x ∈ seen
      · rw [if_pos hx]
        exact ih seen
      · rw [if_neg hx]
        refine List.nodup_cons.mpr ⟨?_, ih (x :: seen)⟩
        intro hmem
        exact ((mem_dedupFirstAux x xs (x :: seen)).mp hmem).2 (List.mem_cons_self x seen)

/-- A platform is a task-dict key iff it was requested and is supported. -/
theorem mem_taskKeys (cfg : PipelineConfig) (q : String) :
    q ∈ taskKeys cfg ↔ q ∈ cfg.platforms ∧ q ∈ SUPPORTED_PLATFORMS := by
  unfold taskKeys dedupFirst
  rw [mem_dedupFirstAux]
  simp only [List.mem_filter, List.not_mem_nil, not_false_iff, and_true]
  rw [show (SUPPORTED_PLATFORMS.contains q ↔ q ∈ SUPPORTED_PLATFORMS) from List.elem_iff]

/-- Task-dict keys are pairwise distinct. -/
theorem nodup_taskKeys (cfg : PipelineConfig) : (taskKeys cfg).Nodup :=
  nodup_dedupFirstAux _ []

/-- Looking a key up in an association list built by pairing each key with
a function of itself. -/
theorem lookup_map_pair (f : String → TaskResult) (p : String) : ∀ l : List String,
    (l.map fun x => (x, f x)).lookup p = if p ∈ l then some (f p) else none := by
  intro l
  induction l with
  | nil => simp [List.lookup]
  | cons x xs ih =>
      simp only [List.map_cons, List.lookup_cons]
      by_cases h : p = x
      · subst h
        simp
      · have hbeq : (p == x) = false := beq_false_of_ne h
        rw [hbeq]
        simp only [List.mem_cons]
        rw [ih]
        by_cases hmem : p ∈ xs
        · rw [if_pos hmem, if_pos (Or.inr hmem)]
        · rw [if_neg hmem, if_neg ?_]
          rintro (h1 | h1)
          · exact h h1
          · exact hmem h1

/-- The keys of `run`'s result are exactly the task-dict keys. -/
theorem run_keys (w : World) (cfg : PipelineConfig) :
    (run w cfg).map Prod.fst = taskKeys cfg := by
  unfold run
  rw [List.map_map]
  exact List.map_id _

/-- Result of `run` as an association-list lookup. -/
theorem run_lookup (w : World) (cfg : PipelineConfig) (p : String) :
    (run w cfg).lookup p
      = if p ∈ taskKeys cfg then some (generate_and_publish w cfg p).1 else none :=
  lookup_map_pair _ p (taskKeys cfg)

/-- One platform's task reads only its own slice of the world: its backend
behaviour at this pillar/platform and its own publisher adapter. -/
theorem generate_and_publish_congr (w w' : World) (cfg : PipelineConfig) (p : String)
    (hgen : w.gen cfg.pillar p = w'.gen cfg.pillar p)
    (hpub : ∀ content, w.pub p content = w'.pub p content) :
    generate_and_publish w cfg p = generate_and_publish w' cfg p := by
  unfold generate_and_publish
  rw [hgen]
  cases w'.gen cfg.pillar p with
  | err m => rfl
  | ok content => simp only [hpub]

/-! ## Claim theorems: orchestrator -/

/-- C1: `run` always returns a complete result mapping over the task-dict
keys; each key's entry is exactly its own task's captured
result-or-exception (a failing task is recorded as that platform's entry,
not raised); and a platform's entry is unchanged under any change to the
world outside that platform's own backend call and publisher — so no
platform's failure aborts the run or alters another platform's entry. In
the model `run` is a total function of a well-typed configuration: only
constructing the task set from a malformed configuration could fail, and
that lies outside the typed state space. -/
theorem run_captures_failures_completely (w w' : World) (cfg : PipelineConfig) (p : String)
    (hgen : w.gen cfg.pillar p = w'.gen cfg.pillar p)
    (hpub : ∀ content, w.pub p content = w'.pub p content) :
    ((run w cfg).map Prod.fst = taskKeys cfg)
    ∧ (p ∈ taskKeys cfg → (run w cfg).lookup p = some (generate_and_publish w cfg p).1)
    ∧ (run w cfg).lookup p = (run w' cfg).lookup p := by
  refine ⟨run_keys w cfg, fun hp => by rw [run_lookup, if_pos hp], ?_⟩
  rw [run_lookup, run_lookup, generate_and_publish_congr w w' cfg p hgen hpub]

/-- Witness for C1: two worlds that differ only in how the `medium`
publisher fails give the same entry for `x`. -/
theorem run_captures_failures_completely_witness :
    (run ⟨fun _ _ => .err "backend down",
          fun pl _ => if pl = "medium" then .err "boom A" else .ok "sent"⟩
         ⟨["x", "medium"], "career_mentorship", false⟩).lookup "x"
      = (run ⟨fun _ _ => .err "backend down",
              fun pl _ => if pl = "medium" then .err "boom B" else .ok "sent"⟩
             ⟨["x", "medium"], "career_mentorship", false⟩).lookup "x" :=
  (run_captures_failures_completely
      ⟨fun _ _ => .err "backend down",
       fun pl _ => if pl = "medium" then .err "boom A" else .ok "sent"⟩
      ⟨fun _ _ => .err "backend down",
       fun pl _ => if pl = "medium" then .err "boom B" else .ok "sent"⟩
      ⟨["x", "medium"], "career_mentorship", false⟩ "x" rfl (fun _ => rfl)).2.2

/-- C2: unsupported requested platforms are silently excluded (no task-dict
key and no result entry), and every supported requested platform has
exactly one entry in the result mapping, whatever its task did. -/
theorem run_result_key_multiplicity (w : World) (cfg : PipelineConfig) (q : String) :
    (q ∉ SUPPORTED_PLATFORMS → q ∉ taskKeys cfg ∧ (run w cfg).lookup q = none)
    ∧ (q ∈ cfg.platforms → q ∈ SUPPORTED_PLATFORMS →
        ((run w cfg).map Prod.fst).count q = 1) := by
  constructor
  · intro hq
    have hnk : q ∉ taskKeys cfg := fun hk => hq ((mem_taskKeys cfg q).mp hk).2
    exact ⟨hnk, by rw [run_lookup, if_neg hnk]⟩
  · intro h1 h2
    rw [run_keys]
    exact List.count_eq_one_of_mem (nodup_taskKeys cfg) ((mem_taskKeys cfg q).mpr ⟨h1, h2⟩)

/-- Witness for C2, on scenario 1 of the spec: requesting
`["x", "linkedin", "bogus"]` yields no entry for `bogus` and exactly one
for `x`. -/
theorem run_result_key_multiplicity_witness :
    ("bogus" ∉ taskKeys ⟨["x", "linkedin", "bogus"], "career_mentorship", true⟩
      ∧ (run ⟨fun _ _ => .err "backend down", fun _ _ => .ok "sent"⟩
             ⟨["x", "linkedin", "bogus"], "career_mentorship", true⟩).lookup "bogus" = none)
    ∧ ((run ⟨fun _ _ => .err "backend down", fun _ _ => .ok "sent"⟩
            ⟨["x", "linkedin", "bogus"], "career_mentorship", true⟩).map Prod.fst).count "x"
        = 1 :=
  ⟨(run_result_key_multiplicity
      ⟨fun _ _ => .err "backend down", fun _ _ => .ok "sent"⟩
      ⟨["x", "linkedin", "bogus"], "career_mentorship", true⟩ "bogus").1 (by decide),
   (run_result_key_multiplicity
      ⟨fun _ _ => .err "backend down", fun _ _ => .ok "sent"⟩
      ⟨["x", "linkedin", "bogus"], "career_mentorship", true⟩ "x").2 (by decide) (by decide)⟩

/-- C10: a supported platform listed more than once in the configuration
yields a single task-dict key (one launched task) and a single
result-mapping entry: duplicates collapse because tasks are keyed by
platform identifier. -/
theorem duplicate_platforms_collapse (w : World) (cfg : PipelineConfig) (p : String)
    (hdup : 1 < cfg.platforms.count p) (hsup : p ∈ SUPPORTED_PLATFORMS) :
    (taskKeys cfg).count p = 1 ∧ ((run w cfg).map Prod.fst).count p = 1 := by
  have hmem : p ∈ cfg.platforms := by
    by_contra hn
    have := List.count_eq_zero.mpr hn
    omega
  have hk : p ∈ taskKeys cfg := (mem_taskKeys cfg p).mpr ⟨hmem, hsup⟩
  have h1 : (taskKeys cfg).count p = 1 := List.count_eq_one_of_mem (nodup_taskKeys cfg) hk
  exact ⟨h1, by rw [run_keys]; exact h1⟩

/-- Witness for C10: requesting `["x", "x"]` produces one task key and one
result entry for `x`. -/
theorem duplicate_platforms_collapse_witness :
    (taskKeys ⟨["x", "x"], "career_mentorship", false⟩).count "x" = 1
    ∧ ((run ⟨fun _ _ => .err "backend down", fun _ _ => .ok "sent"⟩
            ⟨["x", "x"], "career_mentorship", false⟩).map Prod.fst).count "x" = 1 :=
  duplicate_platforms_collapse
    ⟨fun _ _ => .err "backend down", fun _ _ => .ok "sent"⟩
    ⟨["x", "x"], "career_mentorship", false⟩ "x" (by decide) (by decide)

/-- C7: a task whose validation fails never invokes its publisher (its
result is the captured validation exception), and under `dry_run` no
publisher is invoked for any platform — when validation passed the result
is the synthetic would-publish status. -/
theorem dry_run_and_rejection_skip_publisher (w : World) (cfg : PipelineConfig)
    (platform content : String) :
    (w.gen cfg.pillar platform = .ok content → (validate content platform).passed = false →
        (generate_and_publish w cfg platform).2 = []
          ∧ (generate_and_publish w cfg platform).1
              = .exn ("Validation failed for " ++ platform ++ ": "
                  ++ pyListRepr (validate content platform).failures))
    ∧ (cfg.dry_run = true → (generate_and_publish w cfg platform).2 = [])
    ∧ (cfg.dry_run = true → w.gen cfg.pillar platform = .ok content →
        (validate content platform).passed = true →
        (generate_and_publish w cfg platform).1
          = .ok ("[DRY RUN] Would publish to " ++ platform)) := by
  refine ⟨fun hg hv => ?_, fun hd => ?_, fun hd hg hv => ?_⟩
  · unfold generate_and_publish
    rw [hg]
    simp [hv]
  · unfold generate_and_publish
    cases hg : w.gen cfg.pillar platform with
    | err m => rfl
    | ok c =>
        by_cases hv : (validate c platform).passed
        · simp [hv, hd]
        · simp [hv]
  · unfold generate_and_publish
    rw [hg]
    simp [hv, hd]

/-- Witness for C7: empty generated content is validation-rejected with no
publisher invocation, and a passing dry run returns the synthetic status. -/
theorem dry_run_and_rejection_skip_publisher_witness :
    ((generate_and_publish ⟨fun _ _ => .ok "", fun _ _ => .ok "sent"⟩
        ⟨["x"], "career_mentorship", false⟩ "x").2 = []
      ∧ (generate_and_publish ⟨fun _ _ => .ok "", fun _ _ => .ok "sent"⟩
            ⟨["x"], "career_mentorship", false⟩ "x").1
          = .exn ("Validation failed for " ++ "x" ++ ": "
              ++ pyListRepr (validate "" "x").failures))
    ∧ (generate_and_publish
          ⟨fun _ _ => .ok (String.mk (List.replicate 100 'b')), fun _ _ => .ok "sent"⟩
          ⟨["x"], "career_mentorship", true⟩ "x").1
        = .ok ("[DRY RUN] Would publish to " ++ "x") :=
  ⟨(dry_run_and_rejection_skip_publisher ⟨fun _ _ => .ok "", fun _ _ => .ok "sent"⟩
      ⟨["x"], "career_mentorship", false⟩ "x" "").1 rfl (by decide),
   (dry_run_and_rejection_skip_publisher
      ⟨fun _ _ => .ok (String.mk (List.replicate 100 'b')), fun _ _ => .ok "sent"⟩
      ⟨["x"], "career_mentorship", true⟩ "x" (String.mk (List.replicate 100 'b'))).2.2
      rfl rfl (by decide)⟩

/-! ## Claim theorems: retry engine -/

/-- C4: in the retry loop, a rate-limit failure on a non-final attempt `n`
sleeps exactly `2^n + jitter n` (which lies in `[2^n, 2^n + 1)` when the
jitter draw lies in `[0,1)`, as `random.uniform(0,1)` guarantees) and
continues with attempt `n+1`; a rate-limit failure on the final attempt
raises `ContentGenerationError` with no further sleep or attempt; a
generic `APIError` sleeps a fixed 1 second on a non-final attempt and on
the final attempt raises carrying the attempt count and the underlying
message; any other exception propagates immediately with no retry. -/
theorem retry_backoff_policy (jitter : Nat → ℚ) (oc : Nat → AttemptOutcome)
    (n : Nat) (msg : String) (hj : 0 ≤ jitter n ∧ jitter n < 1) :
    (n + 1 < MAX_RETRIES → oc n = .rateLimit →
        retryFrom jitter oc n
            = ((retryFrom jitter oc (n + 1)).1,
               ((2:ℚ) ^ n + jitter n) :: (retryFrom jitter oc (n + 1)).2)
          ∧ (2:ℚ) ^ n ≤ (2:ℚ) ^ n + jitter n
          ∧ (2:ℚ) ^ n + jitter n < (2:ℚ) ^ n + 1)
    ∧ (n = MAX_RETRIES - 1 → oc n = .rateLimit →
        retryFrom jitter oc n = (.genError "Rate limit exceeded after max retries", []))
    ∧ (n + 1 < MAX_RETRIES → oc n = .apiError msg →
        retryFrom jitter oc n
            = ((retryFrom jitter oc (n + 1)).1, (1:ℚ) :: (retryFrom jitter oc (n + 1)).2))
    ∧ (n = MAX_RETRIES - 1 → oc n = .apiError msg →
        retryFrom jitter oc n
            = (.genError ("API error after " ++ toString MAX_RETRIES ++ " attempts: " ++ msg), []))
    ∧ (n < MAX_RETRIES → oc n = .other msg →
        retryFrom jitter oc n = (.uncaught msg, [])) := by
  refine ⟨fun hn hoc => ⟨?_, by linarith [hj.1], by linarith [hj.2]⟩,
          fun hn hoc => ?_, fun hn hoc => ?_, fun hn hoc => ?_, fun hn hoc => ?_⟩
  · have : n = 0 ∨ n = 1 := by simp [MAX_RETRIES] at hn; omega
    rcases this with rfl | rfl <;> simp [retryFrom, MAX_RETRIES, retryAux, hoc]
  · simp only [MAX_RETRIES] at hn
    subst hn
    simp [retryFrom, MAX_RETRIES, retryAux, hoc]
  · have : n = 0 ∨ n = 1 := by simp [MAX_RETRIES] at hn; omega
    rcases this with rfl | rfl <;> simp [retryFrom, MAX_RETRIES, retryAux, hoc]
  · simp only [MAX_RETRIES] at hn
    subst hn
    simp [retryFrom, MAX_RETRIES, retryAux, hoc]
  · have : n = 0 ∨ n = 1 ∨ n = 2 := by simp [MAX_RETRIES] at hn; omega
    rcases this with rfl | rfl | rfl <;> simp [retryFrom, MAX_RETRIES, retryAux, hoc]

/-- Witness for C4: with a jitter draw of 1/2, a rate limit on the last
attempt raises with no sleep, and an unclassified exception propagates at
once. -/
theorem retry_backoff_policy_witness :
    retryFrom (fun _ => (1:ℚ)/2) (fun _ => .rateLimit) 2
        = (.genError "Rate limit exceeded after max retries", [])
    ∧ retryFrom (fun _ => (1:ℚ)/2) (fun _ => .other "ConnectionError") 0
        = (.uncaught "ConnectionError", []) :=
  ⟨(retry_backoff_policy (fun _ => (1:ℚ)/2) (fun _ => .rateLimit) 2 "m"
      ⟨by norm_num, by norm_num⟩).2.1 (by decide) rfl,
   (retry_backoff_policy (fun _ => (1:ℚ)/2) (fun _ => .other "ConnectionError") 0
      "ConnectionError" ⟨by norm_num, by norm_num⟩).2.2.2.2 (by decide) rfl⟩

/-! ## Claim theorems: OAuth signing -/

/-- C8: building the OAuth 1.0a Authorization header is a pure function of
the digest primitive, credentials, method, URL, nonce and timestamp — two
runs on the same inputs are byte-identical — and the produced header
coincides with the spec canonical construction (RFC 3986
percent-encoding, `key=value` pairs joined sorted lexicographically by
encoded key, signature = base64 of HMAC-SHA1 of
`METHOD&enc(URL)&enc(parameter-string)` under
`enc(consumer-secret)&enc(token-secret)`, emitted as sorted,
percent-encoded, quoted `OAuth` parameters). The two definitions sort by
raw versus encoded key; they agree because the six protocol parameter
names consist of unreserved characters only, so encoding fixes them. -/
theorem oauth_header_deterministic_and_canonical
    (hmacSha1 : List Nat → List Nat → List Nat) (creds : TwitterCreds)
    (method url nonce timestamp : String) :
    build_oauth_headers hmacSha1 creds method url nonce timestamp
        = build_oauth_headers hmacSha1 creds method url nonce timestamp
    ∧ build_oauth_headers hmacSha1 creds method url nonce timestamp
        = spec_oauth_header hmacSha1 creds method url nonce timestamp :=
  ⟨rfl, rfl⟩
